import Mathlib

/-!
Shallow embedding of the ClickBus backend (src/unnamed/part_001), a Hono HTTP
application over two module-level mutable variables (`podLogs`, `requestCount`)
and two module-level constants (`POD_GUID`, `POD_START_TIME`).

The process environment (the constant `POD_GUID` generated at process start, the
start timestamp, and the `POD_NAME` / `POD_NAMESPACE` / `POD_IP` environment
variables) is modelled as an `Env` record fixed for one process lifetime.
External nondeterminism (the per-request `new Date().toISOString()` server
timestamp, the `crypto.randomUUID()` correlation id, the uptime computed from
the real-time clock) is supplied as explicit inputs to each handler.
The mutable globals form `ServerState`; each handler maps a state to a
response-state pair, exactly mirroring the reads and writes in the source.
-/

/-- The process environment: the module constants generated at startup and the
environment variables the handlers read (`c.env.POD_NAME` etc.). -/
structure Env where
  podGuid : String
  startTime : String
  podName : Option String
  podNamespace : Option String
  podIP : Option String
deriving DecidableEq

/-- JavaScript `x || d` applied to an (optional) environment string: `undefined`
and the empty string are falsy, anything else is returned as-is. -/
def envOr (v : Option String) (d : String) : String :=
  match v with
  | none => d
  | some s => if s = "" then d else s

/-- The two module-level mutable variables: `let podLogs: string[] = []` and
`let requestCount = 0`. -/
structure ServerState where
  podLogs : List String
  requestCount : Nat
deriving DecidableEq

/-- State at process start: empty log list, zero request counter. -/
def initState : ServerState := { podLogs := [], requestCount := 0 }

/-- A JSON field of the raw ingestion payload: missing, a string, or present
but not a string (any other JSON value, which `z.string()` rejects). -/
inductive JField where
  | absent
  | jstr (s : String)
  | jnonstring
deriving DecidableEq

/-- The raw JSON body of `POST /api/log` before validation, restricted to the
five fields `LogActionSchema` inspects. -/
structure RawPayload where
  action : JField
  guid : JField
  details : JField
  timestamp : JField
  podName : JField
deriving DecidableEq

/-- A payload accepted by `LogActionSchema`: four required strings and an
optional `podName` string. -/
structure Payload where
  action : String
  guid : String
  details : String
  timestamp : String
  podName : Option String
deriving DecidableEq

/-- `z.string()`: succeeds exactly on a string value. -/
def reqString : JField → Option String
  | .jstr s => some s
  | _ => none

/-- `z.string().optional()`: succeeds on a missing field or a string, fails on
any other value. -/
def optString : JField → Option (Option String)
  | .absent => some none
  | .jstr s => some (some s)
  | .jnonstring => none

/-- `zValidator('json', LogActionSchema)`: validate the raw body against the
zod schema, producing the typed payload on success. -/
def validatePayload (r : RawPayload) : Option Payload := do
  let a ← reqString r.action
  let g ← reqString r.guid
  let d ← reqString r.details
  let t ← reqString r.timestamp
  let pn ← optString r.podName
  pure { action := a, guid := g, details := d, timestamp := t, podName := pn }

/-- Embed a valid payload back into a raw JSON body (all required fields
present as strings, `podName` present iff supplied). -/
def rawOf (p : Payload) : RawPayload :=
  { action := .jstr p.action, guid := .jstr p.guid, details := .jstr p.details,
    timestamp := .jstr p.timestamp,
    podName := match p.podName with | none => .absent | some s => .jstr s }

/-- The post-insertion cap from the ingestion handler:
`if (podLogs.length > 100) podLogs = podLogs.slice(-100)` — keep only the last
100 entries once the length exceeds 100. -/
def capLogs (l : List String) : List String :=
  if l.length > 100 then l.drop (l.length - 100) else l

/-- The formatted log line stored by the ingestion handler:
`` `${serverTimestamp} | Pod: ${podName} | GUID: ${POD_GUID} | Action: ${action} | Details: ${details} | Req#: ${requestCount}` ``. -/
def mkEntry (serverTs podName podGuid action details : String) (reqNo : Nat) : String :=
  serverTs ++ " | Pod: " ++ podName ++ " | GUID: " ++ podGuid ++
    " | Action: " ++ action ++ " | Details: " ++ details ++
    " | Req#: " ++ toString reqNo

/-- The JSON response of `POST /api/log` (success body, the zod 400 rejection,
or the catch-branch 500). -/
structure PostLogResp where
  status : Nat
  success : Bool
  message : Option String
  logId : Option String
deriving DecidableEq

/-- Body of the ingestion handler, run after validation succeeded: increment
the counter, format the entry from the server environment and the payload,
append, cap at 100, and acknowledge with the fresh correlation id. -/
def postLogHandler (env : Env) (serverTs freshId : String) (p : Payload)
    (s : ServerState) : PostLogResp × ServerState :=
  let rc := s.requestCount + 1
  let pn := envOr env.podName "backend-pod"
  let entry := mkEntry serverTs pn env.podGuid p.action p.details rc
  let logs := capLogs (s.podLogs ++ [entry])
  ({ status := 200, success := true,
     message := some "Action logged successfully", logId := some freshId },
   { podLogs := logs, requestCount := rc })

/-- The full `POST /api/log` route: the `zValidator` middleware rejects an
invalid body with a 400 client error and never runs the handler (state
untouched); a valid body reaches `postLogHandler`. -/
def postLogRoute (env : Env) (serverTs freshId : String) (raw : RawPayload)
    (s : ServerState) : PostLogResp × ServerState :=
  match validatePayload raw with
  | none => ({ status := 400, success := false, message := none, logId := none }, s)
  | some p => postLogHandler env serverTs freshId p s

/-- `Array.prototype.join(sep)` on a list of strings. -/
def joinWith (sep : String) : List String → String
  | [] => ""
  | [x] => x
  | x :: y :: rest => x ++ sep ++ joinWith sep (y :: rest)

/-- Header of the `GET /api/logs/guid` text report. -/
def guidHeader (env : Env) (s : ServerState) : String :=
  "=== ClickBus Pod GUID Logs ===\nPod: " ++ envOr env.podName "backend-pod" ++
    "\nGUID: " ++ env.podGuid ++ "\nStarted: " ++ env.startTime ++
    "\nTotal Requests Processed: " ++ toString s.requestCount ++
    "\n\n=== Recent Activity ===\n"

/-- Body of the `GET /api/logs/guid` text response: header plus either the
empty-buffer placeholder or the entries joined by newlines. -/
def logsGuidBody (env : Env) (s : ServerState) : String :=
  if s.podLogs.length = 0 then
    guidHeader env s ++ "No activity logged yet on this pod."
  else
    guidHeader env s ++ joinWith "\n" s.podLogs

/-- The `GET /api/logs/guid` handler: renders the report, mutates nothing. -/
def handleLogsGuid (env : Env) (s : ServerState) : String × ServerState :=
  (logsGuidBody env s, s)

/-- One step of `log.replace(/\|/g, ' -')`: a pipe becomes the two characters
space-dash, every other character is kept. -/
def replacePipeChar (c : Char) : List Char :=
  if c = '|' then [' ', '-'] else [c]

/-- `log.replace(/\|/g, ' -')` on a whole string. -/
def replacePipes (x : String) : String :=
  String.mk (x.data.flatMap replacePipeChar)

/-- Header of the `GET /api/logs/data` text report. -/
def dataHeader (env : Env) (s : ServerState) : String :=
  "=== ClickBus Data Activity Log ===\nPod Name: " ++ envOr env.podName "backend-pod" ++
    "\nPod GUID: " ++ env.podGuid ++ "\nUptime: " ++ env.startTime ++
    "\nRequests Handled: " ++ toString s.requestCount ++ "\n\n"

/-- Empty-buffer placeholder of the `GET /api/logs/data` report. -/
def dataPlaceholder : String :=
  "No user interactions logged yet on this pod.\n\nNote: In a 10-replica deployment, you\x27ll see different pod GUIDs serving different requests, demonstrating load distribution."

/-- `podLogs.map(log => log.replace(/\|/g, ' -')).join('\n')`. -/
def formattedDataLogs (logs : List String) : String :=
  joinWith "\n" (logs.map replacePipes)

/-- Body of the `GET /api/logs/data` text response. -/
def logsDataBody (env : Env) (s : ServerState) : String :=
  if s.podLogs.length = 0 then
    dataHeader env s ++ dataPlaceholder
  else
    dataHeader env s ++ formattedDataLogs s.podLogs

/-- The `GET /api/logs/data` handler: renders the report, mutates nothing. -/
def handleLogsData (env : Env) (s : ServerState) : String × ServerState :=
  (logsDataBody env s, s)

/-- JSON response of `GET /api/pod-guid`. -/
structure PodGuidResp where
  podGuid : String
  podName : String
  startTime : String
  requestsHandled : Nat
  timestamp : String
  uptime : String
deriving DecidableEq

/-- The `GET /api/pod-guid` handler: increments the counter
(`requestCount++; // Track this request too`) and reports identity, the new
counter value and the clock-derived uptime. -/
def handlePodGuid (env : Env) (now : String) (uptimeSecs : Nat)
    (s : ServerState) : PodGuidResp × ServerState :=
  let rc := s.requestCount + 1
  ({ podGuid := env.podGuid, podName := envOr env.podName "backend-pod",
     startTime := env.startTime, requestsHandled := rc, timestamp := now,
     uptime := toString uptimeSecs ++ " seconds" },
   { s with requestCount := rc })

/-- JSON response of `GET /api/pod-status`. -/
structure PodStatusResp where
  deployment : String
  podName : String
  podGuid : String
  podNamespace : String
  podIP : String
  startTime : String
  uptime : Nat
  requestsProcessed : Nat
  logEntries : Nat
  timestamp : String
  note : String
deriving DecidableEq

/-- The `GET /api/pod-status` handler: a pure read of the state and the
environment; it does not touch the counter. -/
def handlePodStatus (env : Env) (now : String) (uptimeSecs : Nat)
    (s : ServerState) : PodStatusResp × ServerState :=
  ({ deployment := "ClickBus Backend",
     podName := envOr env.podName "backend-pod",
     podGuid := env.podGuid,
     podNamespace := envOr env.podNamespace "clickbus",
     podIP := envOr env.podIP "unknown",
     startTime := env.startTime, uptime := uptimeSecs,
     requestsProcessed := s.requestCount, logEntries := s.podLogs.length,
     timestamp := now,
     note := "In a 10-replica deployment, each pod will have a unique GUID and process different requests" },
   s)

/-- JSON response of `GET /api/health`. -/
structure HealthResp where
  status : String
  service : String
  timestamp : String
  podName : String
  podGuid : String
  uptime : String
  requestsProcessed : Nat
  deploymentReady : Bool
deriving DecidableEq

/-- The `GET /api/health` handler: a pure read. -/
def handleHealth (env : Env) (now : String) (uptimeSecs : Nat)
    (s : ServerState) : HealthResp × ServerState :=
  ({ status := "healthy", service := "ClickBus Backend", timestamp := now,
     podName := envOr env.podName "backend-pod", podGuid := env.podGuid,
     uptime := toString uptimeSecs ++ "s",
     requestsProcessed := s.requestCount, deploymentReady := true },
   s)

/-- JSON response of `GET /`. -/
structure RootResp where
  service : String
  version : String
  podGuid : String
  podName : String
  startTime : String
  requestsHandled : Nat
  endpoints : List String
  deploymentNote : String
deriving DecidableEq

/-- The `GET /` handler: a pure read. -/
def handleRoot (env : Env) (s : ServerState) : RootResp × ServerState :=
  ({ service := "ClickBus Backend API", version := "1.0.0",
     podGuid := env.podGuid, podName := envOr env.podName "backend-pod",
     startTime := env.startTime, requestsHandled := s.requestCount,
     endpoints := ["/api/log", "/api/logs/guid", "/api/logs/data",
                   "/api/health", "/api/pod-guid", "/api/pod-status"],
     deploymentNote := "Each pod in a 10-replica deployment will show a unique GUID" },
   s)

/-- One HTTP request to the app, with its external nondeterminism (timestamps,
fresh correlation id, clock-derived uptime) supplied as data. -/
inductive Op where
  | ingest (serverTs freshId : String) (raw : RawPayload)
  | logsGuid
  | logsData
  | podGuid (now : String) (uptimeSecs : Nat)
  | podStatus (now : String) (uptimeSecs : Nat)
  | health (now : String) (uptimeSecs : Nat)
  | root
deriving DecidableEq

/-- State transformation of one request. -/
def step (env : Env) (op : Op) (s : ServerState) : ServerState :=
  match op with
  | .ingest ts fid raw => (postLogRoute env ts fid raw s).2
  | .logsGuid => (handleLogsGuid env s).2
  | .logsData => (handleLogsData env s).2
  | .podGuid now u => (handlePodGuid env now u s).2
  | .podStatus now u => (handlePodStatus env now u s).2
  | .health now u => (handleHealth env now u s).2
  | .root => (handleRoot env s).2

/-- Run a sequence of requests in order. -/
def run (env : Env) (ops : List Op) (s : ServerState) : ServerState :=
  match ops with
  | [] => s
  | op :: rest => run env rest (step env op s)

/-- One valid ingestion call together with its per-request nondeterminism. -/
structure IngestCall where
  serverTs : String
  freshId : String
  payload : Payload
deriving DecidableEq

/-- The request sequence of a list of valid ingestion calls. -/
def opsOf (calls : List IngestCall) : List Op :=
  calls.map (fun c => Op.ingest c.serverTs c.freshId (rawOf c.payload))

/-- The log lines a list of ingestion calls produces when the counter starts
at `k`: the i-th call is stamped with request number `k + i + 1`. -/
def entriesFrom (env : Env) (k : Nat) : List IngestCall → List String
  | [] => []
  | c :: rest =>
      mkEntry c.serverTs (envOr env.podName "backend-pod") env.podGuid
          c.payload.action c.payload.details (k + 1) ::
        entriesFrom env (k + 1) rest

/-- Substring test on character lists: `sub` occurs contiguously in the list. -/
def listInfix (sub : List Char) : List Char → Bool
  | [] => sub.isEmpty
  | c :: rest => sub.isPrefixOf (c :: rest) || listInfix sub rest

/-- Substring test on strings: `sub` occurs contiguously in `hay`. -/
def strContains (hay sub : String) : Bool :=
  listInfix sub.data hay.data

/-- A sample environment used to instantiate universally quantified theorems. -/
def sampleEnv : Env :=
  { podGuid := "guid-0", startTime := "2024-01-01T00:00:00.000Z",
    podName := none, podNamespace := none, podIP := none }

/-- A sample valid ingestion call. -/
def sampleCall : IngestCall :=
  { serverTs := "ts0", freshId := "id0",
    payload := { action := "a", guid := "g", details := "d",
                 timestamp := "t", podName := none } }

/-! ### String and list infrastructure lemmas -/

theorem sdata_append (a b : String) : (a ++ b).data = a.data ++ b.data :=
  String.data_append a b

theorem isPrefixOf_append_self (sub post : List Char) :
    sub.isPrefixOf (sub ++ post) = true := by
  induction sub with
  | nil => simp [List.isPrefixOf]
  | cons c cs ih => simp [List.isPrefixOf, ih]

theorem isPrefixOf_append_extend (a l r : List Char) (h : a.isPrefixOf l = true) :
    a.isPrefixOf (l ++ r) = true := by
  induction a generalizing l with
  | nil => simp [List.isPrefixOf]
  | cons c cs ih =>
      cases l with
      | nil => simp [List.isPrefixOf] at h
      | cons b bs =>
          simp only [List.isPrefixOf, Bool.and_eq_true] at h
          simp only [List.cons_append, List.isPrefixOf, Bool.and_eq_true]
          exact ⟨h.1, ih bs h.2⟩

theorem isPrefixOf_exists (a : List Char) :
    ∀ l, a.isPrefixOf l = true → ∃ t, l = a ++ t := by
  induction a with
  | nil => intro l _; exact ⟨l, rfl⟩
  | cons c cs ih =>
      intro l h
      cases l with
      | nil => simp [List.isPrefixOf] at h
      | cons b bs =>
          simp only [List.isPrefixOf, Bool.and_eq_true, beq_iff_eq] at h
          obtain ⟨t, ht⟩ := ih bs h.2
          exact ⟨t, by simp [h.1, ht]⟩

theorem listInfix_nil (l : List Char) : listInfix [] l = true := by
  cases l <;> simp [listInfix, List.isPrefixOf]

theorem listInfix_append_self (sub post : List Char) :
    listInfix sub (sub ++ post) = true := by
  cases sub with
  | nil => simpa using listInfix_nil post
  | cons c cs =>
      simp only [List.cons_append, listInfix, Bool.or_eq_true]
      left
      exact isPrefixOf_append_self (c :: cs) post

theorem listInfix_intro (sub pre post : List Char) :
    listInfix sub (pre ++ (sub ++ post)) = true := by
  induction pre with
  | nil => simpa using listInfix_append_self sub post
  | cons p ps ih =>
      simp only [List.cons_append, listInfix, Bool.or_eq_true]
      right
      exact ih

theorem listInfix_append_right (sub l r : List Char)
    (h : listInfix sub r = true) : listInfix sub (l ++ r) = true := by
  induction l with
  | nil => simpa using h
  | cons c cs ih =>
      simp only [List.cons_append, listInfix, Bool.or_eq_true]
      right
      exact ih

theorem listInfix_append_left (sub l r : List Char)
    (h : listInfix sub l = true) : listInfix sub (l ++ r) = true := by
  induction l with
  | nil =>
      simp only [listInfix, List.isEmpty_iff] at h
      subst h
      simpa using listInfix_nil r
  | cons c cs ih =>
      simp only [listInfix, Bool.or_eq_true] at h
      simp only [List.cons_append, listInfix, Bool.or_eq_true]
      rcases h with h | h
      · left
        have := isPrefixOf_append_extend sub (c :: cs) r h
        simpa using this
      · right
        exact ih h

theorem listInfix_exists (sub : List Char) :
    ∀ l, listInfix sub l = true → ∃ pre post, l = pre ++ (sub ++ post) := by
  intro l
  induction l with
  | nil =>
      intro h
      simp only [listInfix, List.isEmpty_iff] at h
      exact ⟨[], [], by simp [h]⟩
  | cons c cs ih =>
      intro h
      simp only [listInfix, Bool.or_eq_true] at h
      rcases h with h | h
      · obtain ⟨t, ht⟩ := isPrefixOf_exists sub (c :: cs) h
        exact ⟨[], t, by simpa using ht⟩
      · obtain ⟨pre, post, hpp⟩ := ih h
        exact ⟨c :: pre, post, by simp [hpp]⟩

theorem listInfix_trans (a b l : List Char) (hab : listInfix a b = true)
    (hbl : listInfix b l = true) : listInfix a l = true := by
  obtain ⟨p1, q1, h1⟩ := listInfix_exists a b hab
  obtain ⟨p2, q2, h2⟩ := listInfix_exists b l hbl
  subst h1
  rw [h2]
  have : p2 ++ (p1 ++ (a ++ q1) ++ q2) = (p2 ++ p1) ++ (a ++ (q1 ++ q2)) := by
    simp [List.append_assoc]
  rw [this]
  exact listInfix_intro a (p2 ++ p1) (q1 ++ q2)

theorem strContains_intro (hay sub : String) (pre post : List Char)
    (h : hay.data = pre ++ (sub.data ++ post)) : strContains hay sub = true := by
  unfold strContains
  rw [h]
  exact listInfix_intro sub.data pre post

theorem strContains_refl (a : String) : strContains a a = true := by
  unfold strContains
  simpa using listInfix_append_self a.data []

theorem strContains_append_left (a b sub : String)
    (h : strContains a sub = true) : strContains (a ++ b) sub = true := by
  unfold strContains at h ⊢
  rw [sdata_append]
  exact listInfix_append_left sub.data a.data b.data h

theorem strContains_append_right (a b sub : String)
    (h : strContains b sub = true) : strContains (a ++ b) sub = true := by
  unfold strContains at h ⊢
  rw [sdata_append]
  exact listInfix_append_right sub.data a.data b.data h

theorem strContains_trans (a b c : String) (hab : strContains a b = true)
    (hbc : strContains b c = true) : strContains a c = true :=
  listInfix_trans c.data b.data a.data hbc hab

theorem strContains_joinWith_of_mem (sep x : String) (l : List String)
    (hm : x ∈ l) : strContains (joinWith sep l) x = true := by
  induction l with
  | nil => cases hm
  | cons y ys ih =>
      cases ys with
      | nil =>
          have hx : x = y := by simpa using hm
          subst hx
          exact strContains_refl x
      | cons z zs =>
          rcases List.mem_cons.mp hm with h | h
          · subst h
            show strContains (x ++ sep ++ joinWith sep (z :: zs)) x = true
            exact strContains_append_left _ _ _
              (strContains_append_left _ _ _ (strContains_refl x))
          · show strContains (y ++ sep ++ joinWith sep (z :: zs)) x = true
            exact strContains_append_right _ _ _ (ih h)

/-! ### Buffer-cap and execution lemmas -/

theorem capLogs_eq_drop (l : List String) :
    capLogs l = l.drop (l.length - 100) := by
  unfold capLogs
  split
  · rfl
  · have h : l.length ≤ 100 := by omega
    simp [Nat.sub_eq_zero_of_le h]

theorem capLogs_length (l : List String) :
    (capLogs l).length = min l.length 100 := by
  rw [capLogs_eq_drop, List.length_drop]
  omega

theorem capLogs_of_le (l : List String) (h : l.length ≤ 100) :
    capLogs l = l := by
  unfold capLogs
  split
  · omega
  · rfl

theorem capLogs_absorb (xs ys : List String) :
    capLogs (capLogs xs ++ ys) = capLogs (xs ++ ys) := by
  rw [capLogs_eq_drop xs, capLogs_eq_drop, capLogs_eq_drop (xs ++ ys)]
  rw [← List.drop_append_of_le_length (Nat.sub_le xs.length 100)]
  rw [List.drop_drop]
  have hidx : xs.length - 100 +
      (((xs ++ ys).drop (xs.length - 100)).length - 100) =
      (xs ++ ys).length - 100 := by
    simp only [List.length_drop, List.length_append]
    omega
  rw [hidx]

theorem validate_rawOf (p : Payload) : validatePayload (rawOf p) = some p := by
  obtain ⟨a, g, d, t, pn⟩ := p
  cases pn <;> rfl

theorem postLogRoute_rawOf (env : Env) (ts fid : String) (p : Payload)
    (s : ServerState) :
    postLogRoute env ts fid (rawOf p) s = postLogHandler env ts fid p s := by
  unfold postLogRoute
  rw [validate_rawOf]

theorem step_podLogs_le (env : Env) (op : Op) (s : ServerState)
    (h : s.podLogs.length ≤ 100) : (step env op s).podLogs.length ≤ 100 := by
  cases op with
  | ingest ts fid raw =>
      show ((postLogRoute env ts fid raw s).2).podLogs.length ≤ 100
      unfold postLogRoute
      cases hv : validatePayload raw with
      | none => simpa using h
      | some p =>
          show ((postLogHandler env ts fid p s).2).podLogs.length ≤ 100
          unfold postLogHandler
          simp only
          rw [capLogs_length]
          omega
  | logsGuid => exact h
  | logsData => exact h
  | podGuid now u => exact h
  | podStatus now u => exact h
  | health now u => exact h
  | root => exact h

theorem run_podLogs_le (env : Env) (ops : List Op) :
    ∀ s : ServerState, s.podLogs.length ≤ 100 →
      (run env ops s).podLogs.length ≤ 100 := by
  induction ops with
  | nil => intro s h; exact h
  | cons op rest ih =>
      intro s h
      exact ih (step env op s) (step_podLogs_le env op s h)

theorem step_requestCount_mono (env : Env) (op : Op) (s : ServerState) :
    s.requestCount ≤ (step env op s).requestCount := by
  cases op with
  | ingest ts fid raw =>
      show s.requestCount ≤ ((postLogRoute env ts fid raw s).2).requestCount
      unfold postLogRoute
      cases hv : validatePayload raw with
      | none => exact Nat.le_refl _
      | some p =>
          show s.requestCount ≤ ((postLogHandler env ts fid p s).2).requestCount
          unfold postLogHandler
          simp only
          omega
  | logsGuid => exact Nat.le_refl _
  | logsData => exact Nat.le_refl _
  | podGuid now u => exact Nat.le_of_lt (Nat.lt_succ_self _)
  | podStatus now u => exact Nat.le_refl _
  | health now u => exact Nat.le_refl _
  | root => exact Nat.le_refl _

theorem run_requestCount_mono (env : Env) (ops : List Op) :
    ∀ s : ServerState, s.requestCount ≤ (run env ops s).requestCount := by
  induction ops with
  | nil => intro s; exact Nat.le_refl _
  | cons op rest ih =>
      intro s
      exact Nat.le_trans (step_requestCount_mono env op s) (ih (step env op s))

theorem entriesFrom_length (env : Env) (calls : List IngestCall) :
    ∀ k, (entriesFrom env k calls).length = calls.length := by
  induction calls with
  | nil => intro k; rfl
  | cons c rest ih => intro k; simp [entriesFrom, ih]

theorem run_opsOf (env : Env) (calls : List IngestCall) :
    ∀ (logs : List String) (k : Nat), logs.length ≤ 100 →
      run env (opsOf calls) { podLogs := logs, requestCount := k } =
        { podLogs := capLogs (logs ++ entriesFrom env k calls),
          requestCount := k + calls.length } := by
  induction calls with
  | nil =>
      intro logs k h
      simp [opsOf, run, entriesFrom, capLogs_of_le logs h]
  | cons c rest ih =>
      intro logs k h
      show run env (Op.ingest c.serverTs c.freshId (rawOf c.payload) :: opsOf rest)
          { podLogs := logs, requestCount := k } = _
      rw [run]
      have hstep : step env (Op.ingest c.serverTs c.freshId (rawOf c.payload))
          { podLogs := logs, requestCount := k } =
          { podLogs := capLogs (logs ++
              [mkEntry c.serverTs (envOr env.podName "backend-pod") env.podGuid
                c.payload.action c.payload.details (k + 1)]),
            requestCount := k + 1 } := by
        show ((postLogRoute env c.serverTs c.freshId (rawOf c.payload)
            { podLogs := logs, requestCount := k }).2) = _
        rw [postLogRoute_rawOf]
        rfl
      rw [hstep]
      rw [ih _ (k + 1) (by rw [capLogs_length]; omega)]
      rw [capLogs_absorb]
      simp [entriesFrom, List.append_assoc]
      omega

/-! ### Pipe sanitisation and report-rendering lemmas -/

theorem replacePipes_no_pipe (x : String) : '|' ∉ (replacePipes x).data := by
  show '|' ∉ x.data.flatMap replacePipeChar
  induction x.data with
  | nil => simp
  | cons c cs ih =>
      simp only [List.flatMap_cons, List.mem_append]
      intro h
      rcases h with h | h
      · unfold replacePipeChar at h
        split at h
        · simp at h
        · next hc =>
            simp only [List.mem_singleton] at h
            exact hc h.symm
      · exact ih h

theorem joinWith_no_pipe (sep : String) (l : List String)
    (hsep : '|' ∉ sep.data) (hl : ∀ x ∈ l, '|' ∉ x.data) :
    '|' ∉ (joinWith sep l).data := by
  induction l with
  | nil => simp [joinWith]
  | cons y ys ih =>
      cases ys with
      | nil =>
          show '|' ∉ y.data
          exact hl y (by simp)
      | cons z zs =>
          show '|' ∉ (y ++ sep ++ joinWith sep (z :: zs)).data
          simp only [sdata_append, List.mem_append]
          intro h
          rcases h with (h | h) | h
          · exact hl y (by simp) h
          · exact hsep h
          · exact ih (fun x hx => hl x (List.mem_cons_of_mem y hx)) h

theorem formattedDataLogs_no_pipe (logs : List String) :
    '|' ∉ (formattedDataLogs logs).data := by
  unfold formattedDataLogs
  refine joinWith_no_pipe "\n" (logs.map replacePipes) (by decide) ?_
  intro x hx
  obtain ⟨y, _, rfl⟩ := List.mem_map.mp hx
  exact replacePipes_no_pipe y

theorem mem_capLogs_append_last (logs : List String) (e : String) :
    e ∈ capLogs (logs ++ [e]) := by
  rw [capLogs_eq_drop]
  have hd : (logs ++ [e]).length - 100 ≤ logs.length := by
    simp only [List.length_append, List.length_cons, List.length_nil]
    omega
  rw [List.drop_append_of_le_length hd]
  simp

theorem capLogs_append_last_ne_nil (logs : List String) (e : String) :
    (capLogs (logs ++ [e])).length ≠ 0 := by
  rw [capLogs_length]
  simp only [List.length_append, List.length_cons, List.length_nil]
  omega

theorem guidHeader_ne_empty (env : Env) (s : ServerState) :
    (guidHeader env s).data ≠ [] := by
  unfold guidHeader
  simp only [sdata_append]
  intro h
  rcases List.append_eq_nil.mp h with ⟨h1, _⟩
  rcases List.append_eq_nil.mp h1 with ⟨h2, _⟩
  rcases List.append_eq_nil.mp h2 with ⟨h3, _⟩
  rcases List.append_eq_nil.mp h3 with ⟨h4, _⟩
  rcases List.append_eq_nil.mp h4 with ⟨h5, _⟩
  rcases List.append_eq_nil.mp h5 with ⟨h6, _⟩
  rcases List.append_eq_nil.mp h6 with ⟨h7, _⟩
  rcases List.append_eq_nil.mp h7 with ⟨h8, _⟩
  exact absurd h8 (by decide)

theorem dataHeader_ne_empty (env : Env) (s : ServerState) :
    (dataHeader env s).data ≠ [] := by
  unfold dataHeader
  simp only [sdata_append]
  intro h
  rcases List.append_eq_nil.mp h with ⟨h1, _⟩
  rcases List.append_eq_nil.mp h1 with ⟨h2, _⟩
  rcases List.append_eq_nil.mp h2 with ⟨h3, _⟩
  rcases List.append_eq_nil.mp h3 with ⟨h4, _⟩
  rcases List.append_eq_nil.mp h4 with ⟨h5, _⟩
  rcases List.append_eq_nil.mp h5 with ⟨h6, _⟩
  rcases List.append_eq_nil.mp h6 with ⟨h7, _⟩
  rcases List.append_eq_nil.mp h7 with ⟨h8, _⟩
  exact absurd h8 (by decide)

/-! ### Containment of the identity token and of stored entries in reports -/

theorem guidHeader_contains_guid (env : Env) (s : ServerState) :
    strContains (guidHeader env s) ("GUID: " ++ env.podGuid) = true := by
  apply strContains_intro _ _
    (("=== ClickBus Pod GUID Logs ===\nPod: " : String).data ++
      (envOr env.podName "backend-pod").data ++ ("\n" : String).data)
    (("\nStarted: " : String).data ++ env.startTime.data ++
      ("\nTotal Requests Processed: " : String).data ++
      (toString s.requestCount).data ++
      ("\n\n=== Recent Activity ===\n" : String).data)
  have hs : ("\nGUID: " : String) = "\n" ++ "GUID: " := rfl
  unfold guidHeader
  rw [hs]
  simp [sdata_append, List.append_assoc]

theorem logsGuidBody_contains_guid (env : Env) (s : ServerState) :
    strContains (logsGuidBody env s) ("GUID: " ++ env.podGuid) = true := by
  unfold logsGuidBody
  split <;> exact strContains_append_left _ _ _ (guidHeader_contains_guid env s)

theorem dataHeader_contains_guid (env : Env) (s : ServerState) :
    strContains (dataHeader env s) ("Pod GUID: " ++ env.podGuid) = true := by
  apply strContains_intro _ _
    (("=== ClickBus Data Activity Log ===\nPod Name: " : String).data ++
      (envOr env.podName "backend-pod").data ++ ("\n" : String).data)
    (("\nUptime: " : String).data ++ env.startTime.data ++
      ("\nRequests Handled: " : String).data ++
      (toString s.requestCount).data ++ ("\n\n" : String).data)
  have hs : ("\nPod GUID: " : String) = "\n" ++ "Pod GUID: " := rfl
  unfold dataHeader
  rw [hs]
  simp [sdata_append, List.append_assoc]

theorem logsDataBody_contains_guid (env : Env) (s : ServerState) :
    strContains (logsDataBody env s) ("Pod GUID: " ++ env.podGuid) = true := by
  unfold logsDataBody
  split <;> exact strContains_append_left _ _ _ (dataHeader_contains_guid env s)

theorem mkEntry_c4_split (ts pn g : String) (n : Nat) :
    (mkEntry ts pn g "tile_click" "d1" n).data =
      (ts.data ++ (" | Pod: " : String).data ++ pn.data ++
        (" | GUID: " : String).data ++ g.data) ++
      ((" | Action: tile_click | Details: d1 | Req#: " : String).data ++
        (toString n).data) := by
  have hc : (" | Action: tile_click | Details: d1 | Req#: " : String) =
      " | Action: " ++ "tile_click" ++ " | Details: " ++ "d1" ++ " | Req#: " := rfl
  unfold mkEntry
  rw [hc]
  simp [sdata_append, List.append_assoc]

theorem strContains_mkEntry_c4 (ts pn g : String) (n : Nat) (target : String)
    (h : listInfix target.data
      (" | Action: tile_click | Details: d1 | Req#: " : String).data = true) :
    strContains (mkEntry ts pn g "tile_click" "d1" n) target = true := by
  unfold strContains
  rw [mkEntry_c4_split]
  exact listInfix_append_right _ _ _ (listInfix_append_left _ _ _ h)

/-! ### Claim theorems -/

/-- C1: every completed insertion (`POST /api/log` with a valid payload), from
any state whatsoever, leaves the log buffer with at most 100 entries; and the
bound `|podLogs| ≤ 100` holds after every sequence of operations of the
program starting from the initial state. -/
theorem c1_buffer_bounded (env : Env) (ts fid : String) (p : Payload)
    (s : ServerState) (ops : List Op) :
    ((postLogRoute env ts fid (rawOf p) s).2).podLogs.length ≤ 100 ∧
    (run env ops initState).podLogs.length ≤ 100 := by
  constructor
  · rw [postLogRoute_rawOf]
    unfold postLogHandler
    simp only
    rw [capLogs_length]
    omega
  · exact run_podLogs_le env ops initState (by simp [initState])

/-- C2: after a sequence of more than 100 valid ingestion calls starting from
the initial state, the buffer holds exactly the 100 most recently ingested
entries in arrival order (the oldest are discarded), and both retrieval
endpoints render exactly those 100 entries after their headers. -/
theorem c2_retrieval_last_hundred (env : Env) (calls : List IngestCall)
    (h : 100 < calls.length) :
    (run env (opsOf calls) initState).podLogs =
        (entriesFrom env 0 calls).drop (calls.length - 100) ∧
    (run env (opsOf calls) initState).podLogs.length = 100 ∧
    logsGuidBody env (run env (opsOf calls) initState) =
      guidHeader env (run env (opsOf calls) initState) ++
        joinWith "\n" ((entriesFrom env 0 calls).drop (calls.length - 100)) ∧
    logsDataBody env (run env (opsOf calls) initState) =
      dataHeader env (run env (opsOf calls) initState) ++
        formattedDataLogs ((entriesFrom env 0 calls).drop (calls.length - 100)) := by
  have hrun : run env (opsOf calls) initState =
      { podLogs := capLogs (entriesFrom env 0 calls),
        requestCount := calls.length } := by
    have hr := run_opsOf env calls [] 0 (by simp)
    simpa [initState] using hr
  have hlen : (entriesFrom env 0 calls).length = calls.length :=
    entriesFrom_length env calls 0
  have hcap : capLogs (entriesFrom env 0 calls) =
      (entriesFrom env 0 calls).drop (calls.length - 100) := by
    rw [capLogs_eq_drop, hlen]
  have hlen2 : ((entriesFrom env 0 calls).drop (calls.length - 100)).length = 100 := by
    rw [List.length_drop, hlen]
    omega
  have hpod : (run env (opsOf calls) initState).podLogs =
      (entriesFrom env 0 calls).drop (calls.length - 100) := by
    rw [hrun]
    exact hcap
  refine ⟨hpod, ?_, ?_, ?_⟩
  · rw [hpod, hlen2]
  · unfold logsGuidBody
    rw [hpod, hlen2]
    simp
  · unfold logsDataBody
    rw [hpod, hlen2]
    simp

/-- Witness for C2 at a concrete sequence of 101 ingestion calls. -/
theorem c2_retrieval_last_hundred_witness :
    100 < (List.replicate 101 sampleCall).length ∧
    ((run sampleEnv (opsOf (List.replicate 101 sampleCall)) initState).podLogs =
        (entriesFrom sampleEnv 0 (List.replicate 101 sampleCall)).drop
          ((List.replicate 101 sampleCall).length - 100) ∧
    (run sampleEnv (opsOf (List.replicate 101 sampleCall)) initState).podLogs.length = 100 ∧
    logsGuidBody sampleEnv (run sampleEnv (opsOf (List.replicate 101 sampleCall)) initState) =
      guidHeader sampleEnv (run sampleEnv (opsOf (List.replicate 101 sampleCall)) initState) ++
        joinWith "\n" ((entriesFrom sampleEnv 0 (List.replicate 101 sampleCall)).drop
          ((List.replicate 101 sampleCall).length - 100)) ∧
    logsDataBody sampleEnv (run sampleEnv (opsOf (List.replicate 101 sampleCall)) initState) =
      dataHeader sampleEnv (run sampleEnv (opsOf (List.replicate 101 sampleCall)) initState) ++
        formattedDataLogs ((entriesFrom sampleEnv 0 (List.replicate 101 sampleCall)).drop
          ((List.replicate 101 sampleCall).length - 100))) :=
  ⟨by simp,
   c2_retrieval_last_hundred sampleEnv (List.replicate 101 sampleCall) (by simp)⟩

/-- C3: the identity token (`POD_GUID`) is fixed by the environment created at
process start and is never changed by any operation: after any two request
histories within one process lifetime, every endpoint that reports the token
(`/api/pod-guid`, `/api/pod-status`, `/api/health`, `/`, and the two text
reports) reports the same token, namely `env.podGuid`. -/
theorem c3_identity_token_stable (env : Env) (ops1 ops2 : List Op)
    (t1 t2 : String) (u1 u2 : Nat) :
    (handlePodGuid env t2 u2 (run env ops2 initState)).1.podGuid =
        (handlePodGuid env t1 u1 (run env ops1 initState)).1.podGuid ∧
    (handlePodGuid env t1 u1 (run env ops1 initState)).1.podGuid = env.podGuid ∧
    (handlePodStatus env t1 u1 (run env ops1 initState)).1.podGuid = env.podGuid ∧
    (handleHealth env t1 u1 (run env ops1 initState)).1.podGuid = env.podGuid ∧
    (handleRoot env (run env ops1 initState)).1.podGuid = env.podGuid ∧
    strContains (logsGuidBody env (run env ops1 initState))
        ("GUID: " ++ env.podGuid) = true ∧
    strContains (logsDataBody env (run env ops1 initState))
        ("Pod GUID: " ++ env.podGuid) = true := by
  refine ⟨rfl, rfl, rfl, rfl, rfl, ?_, ?_⟩
  · exact logsGuidBody_contains_guid env _
  · exact logsDataBody_contains_guid env _

/-- C4: posting `{action:"tile_click", guid:"g1", details:"d1", timestamp:"t1"}`
succeeds with the fresh correlation id as `logId` (non-empty whenever the
generated id is), and the subsequent `GET /api/logs/guid` body contains the
stored line, which includes both `Action: tile_click` and `Details: d1`
(indeed the contiguous text `Action: tile_click | Details: d1`). -/
theorem c4_tile_click_logged (env : Env) (ts fid : String) (s : ServerState)
    (h : fid ≠ "") :
    (postLogRoute env ts fid (rawOf (Payload.mk "tile_click" "g1" "d1" "t1" none)) s).1.success = true ∧
    (postLogRoute env ts fid (rawOf (Payload.mk "tile_click" "g1" "d1" "t1" none)) s).1.status = 200 ∧
    (postLogRoute env ts fid (rawOf (Payload.mk "tile_click" "g1" "d1" "t1" none)) s).1.logId = some fid ∧
    (postLogRoute env ts fid (rawOf (Payload.mk "tile_click" "g1" "d1" "t1" none)) s).1.logId ≠ some "" ∧
    strContains (logsGuidBody env
      (postLogRoute env ts fid (rawOf (Payload.mk "tile_click" "g1" "d1" "t1" none)) s).2)
      "Action: tile_click" = true ∧
    strContains (logsGuidBody env
      (postLogRoute env ts fid (rawOf (Payload.mk "tile_click" "g1" "d1" "t1" none)) s).2)
      "Details: d1" = true ∧
    strContains (logsGuidBody env
      (postLogRoute env ts fid (rawOf (Payload.mk "tile_click" "g1" "d1" "t1" none)) s).2)
      "Action: tile_click | Details: d1" = true := by
  rw [postLogRoute_rawOf]
  have hbody : logsGuidBody env
      (postLogHandler env ts fid (Payload.mk "tile_click" "g1" "d1" "t1" none) s).2 =
      guidHeader env (postLogHandler env ts fid (Payload.mk "tile_click" "g1" "d1" "t1" none) s).2 ++
      joinWith "\n" (capLogs (s.podLogs ++
        [mkEntry ts (envOr env.podName "backend-pod") env.podGuid
          "tile_click" "d1" (s.requestCount + 1)])) := by
    unfold logsGuidBody
    rw [if_neg]
    · rfl
    · exact capLogs_append_last_ne_nil s.podLogs _
  have hmem : mkEntry ts (envOr env.podName "backend-pod") env.podGuid
      "tile_click" "d1" (s.requestCount + 1) ∈
      capLogs (s.podLogs ++
        [mkEntry ts (envOr env.podName "backend-pod") env.podGuid
          "tile_click" "d1" (s.requestCount + 1)]) :=
    mem_capLogs_append_last s.podLogs _
  have hentry : strContains (joinWith "\n" (capLogs (s.podLogs ++
      [mkEntry ts (envOr env.podName "backend-pod") env.podGuid
        "tile_click" "d1" (s.requestCount + 1)])))
      (mkEntry ts (envOr env.podName "backend-pod") env.podGuid
        "tile_click" "d1" (s.requestCount + 1)) = true :=
    strContains_joinWith_of_mem "\n" _ _ hmem
  have hbodyentry : strContains (logsGuidBody env
      (postLogHandler env ts fid (Payload.mk "tile_click" "g1" "d1" "t1" none) s).2)
      (mkEntry ts (envOr env.podName "backend-pod") env.podGuid
        "tile_click" "d1" (s.requestCount + 1)) = true := by
    rw [hbody]
    exact strContains_append_right _ _ _ hentry
  refine ⟨rfl, rfl, rfl, ?_, ?_, ?_, ?_⟩
  · intro he
    have hfe : some fid = some "" := he
    exact h (Option.some.inj hfe)
  · exact strContains_trans _ _ _ hbodyentry
      (strContains_mkEntry_c4 _ _ _ _ _ (by decide))
  · exact strContains_trans _ _ _ hbodyentry
      (strContains_mkEntry_c4 _ _ _ _ _ (by decide))
  · exact strContains_trans _ _ _ hbodyentry
      (strContains_mkEntry_c4 _ _ _ _ _ (by decide))

/-- Witness for C4 at a concrete environment, timestamp, id and state. -/
theorem c4_tile_click_logged_witness :
    ("id0" : String) ≠ "" ∧
    ((postLogRoute sampleEnv "ts0" "id0" (rawOf (Payload.mk "tile_click" "g1" "d1" "t1" none)) initState).1.success = true ∧
    (postLogRoute sampleEnv "ts0" "id0" (rawOf (Payload.mk "tile_click" "g1" "d1" "t1" none)) initState).1.status = 200 ∧
    (postLogRoute sampleEnv "ts0" "id0" (rawOf (Payload.mk "tile_click" "g1" "d1" "t1" none)) initState).1.logId = some "id0" ∧
    (postLogRoute sampleEnv "ts0" "id0" (rawOf (Payload.mk "tile_click" "g1" "d1" "t1" none)) initState).1.logId ≠ some "" ∧
    strContains (logsGuidBody sampleEnv
      (postLogRoute sampleEnv "ts0" "id0" (rawOf (Payload.mk "tile_click" "g1" "d1" "t1" none)) initState).2)
      "Action: tile_click" = true ∧
    strContains (logsGuidBody sampleEnv
      (postLogRoute sampleEnv "ts0" "id0" (rawOf (Payload.mk "tile_click" "g1" "d1" "t1" none)) initState).2)
      "Details: d1" = true ∧
    strContains (logsGuidBody sampleEnv
      (postLogRoute sampleEnv "ts0" "id0" (rawOf (Payload.mk "tile_click" "g1" "d1" "t1" none)) initState).2)
      "Action: tile_click | Details: d1" = true) :=
  ⟨by decide, c4_tile_click_logged sampleEnv "ts0" "id0" initState (by decide)⟩

/-- C5: a payload whose `action` field is missing is rejected by the zod
validator with a 400 client error; the handler never runs, so the buffer and
the request counter are unchanged. -/
theorem c5_missing_action_rejected (env : Env) (ts fid : String)
    (raw : RawPayload) (s : ServerState) (h : raw.action = JField.absent) :
    (postLogRoute env ts fid raw s).1.status = 400 ∧
    (postLogRoute env ts fid raw s).2 = s ∧
    (postLogRoute env ts fid raw s).2.podLogs = s.podLogs ∧
    (postLogRoute env ts fid raw s).2.requestCount = s.requestCount := by
  have hv : validatePayload raw = none := by
    unfold validatePayload
    rw [h]
    rfl
  unfold postLogRoute
  rw [hv]
  exact ⟨rfl, rfl, rfl, rfl⟩

/-- Witness for C5 at a concrete payload missing `action`. -/
theorem c5_missing_action_rejected_witness :
    (RawPayload.mk JField.absent (JField.jstr "g1") (JField.jstr "d1")
      (JField.jstr "t1") JField.absent).action = JField.absent ∧
    ((postLogRoute sampleEnv "ts0" "id0"
        (RawPayload.mk JField.absent (JField.jstr "g1") (JField.jstr "d1")
          (JField.jstr "t1") JField.absent) initState).1.status = 400 ∧
    (postLogRoute sampleEnv "ts0" "id0"
        (RawPayload.mk JField.absent (JField.jstr "g1") (JField.jstr "d1")
          (JField.jstr "t1") JField.absent) initState).2 = initState ∧
    (postLogRoute sampleEnv "ts0" "id0"
        (RawPayload.mk JField.absent (JField.jstr "g1") (JField.jstr "d1")
          (JField.jstr "t1") JField.absent) initState).2.podLogs = initState.podLogs ∧
    (postLogRoute sampleEnv "ts0" "id0"
        (RawPayload.mk JField.absent (JField.jstr "g1") (JField.jstr "d1")
          (JField.jstr "t1") JField.absent) initState).2.requestCount = initState.requestCount) :=
  ⟨rfl, c5_missing_action_rejected sampleEnv "ts0" "id0" _ initState rfl⟩

/-- C6: across two calls to `GET /api/pod-guid` with any requests in between,
the reported `podGuid` is identical and `requestsHandled` never decreases. -/
theorem c6_podguid_same_and_monotone (env : Env) (t1 t2 : String)
    (u1 u2 : Nat) (ops : List Op) (s : ServerState) :
    (handlePodGuid env t2 u2
        (run env ops (handlePodGuid env t1 u1 s).2)).1.podGuid =
      (handlePodGuid env t1 u1 s).1.podGuid ∧
    (handlePodGuid env t1 u1 s).1.requestsHandled ≤
      (handlePodGuid env t2 u2
        (run env ops (handlePodGuid env t1 u1 s).2)).1.requestsHandled := by
  constructor
  · rfl
  · show s.requestCount + 1 ≤
      (run env ops (handlePodGuid env t1 u1 s).2).requestCount + 1
    have h2 := run_requestCount_mono env ops (handlePodGuid env t1 u1 s).2
    have h1 : ((handlePodGuid env t1 u1 s).2).requestCount = s.requestCount + 1 := rfl
    omega

/-- C7: against an empty buffer both text endpoints return their header plus
their documented placeholder; both bodies are non-empty and contain the
placeholder text. -/
theorem c7_empty_buffer_placeholder (env : Env) (s : ServerState)
    (h : s.podLogs = []) :
    logsGuidBody env s = guidHeader env s ++ "No activity logged yet on this pod." ∧
    logsDataBody env s = dataHeader env s ++ dataPlaceholder ∧
    logsGuidBody env s ≠ "" ∧
    logsDataBody env s ≠ "" ∧
    strContains (logsGuidBody env s) "No activity logged yet on this pod." = true ∧
    strContains (logsDataBody env s)
      "No user interactions logged yet on this pod." = true := by
  have h0 : s.podLogs.length = 0 := by rw [h]; rfl
  have hg : logsGuidBody env s =
      guidHeader env s ++ "No activity logged yet on this pod." := by
    unfold logsGuidBody
    rw [if_pos h0]
  have hd : logsDataBody env s = dataHeader env s ++ dataPlaceholder := by
    unfold logsDataBody
    rw [if_pos h0]
  have hsplit : dataPlaceholder =
      "No user interactions logged yet on this pod." ++
      "\n\nNote: In a 10-replica deployment, you\x27ll see different pod GUIDs serving different requests, demonstrating load distribution." := rfl
  refine ⟨hg, hd, ?_, ?_, ?_, ?_⟩
  · rw [hg]
    intro he
    have hdata := congrArg String.data he
    rw [sdata_append] at hdata
    exact guidHeader_ne_empty env s (List.append_eq_nil.mp hdata).1
  · rw [hd]
    intro he
    have hdata := congrArg String.data he
    rw [sdata_append] at hdata
    exact dataHeader_ne_empty env s (List.append_eq_nil.mp hdata).1
  · rw [hg]
    exact strContains_append_right _ _ _ (strContains_refl _)
  · rw [hd, hsplit]
    exact strContains_append_right _ _ _
      (strContains_append_left _ _ _ (strContains_refl _))

/-- Witness for C7 at the initial (empty-buffer) state. -/
theorem c7_empty_buffer_placeholder_witness :
    initState.podLogs = [] ∧
    (logsGuidBody sampleEnv initState =
      guidHeader sampleEnv initState ++ "No activity logged yet on this pod." ∧
    logsDataBody sampleEnv initState = dataHeader sampleEnv initState ++ dataPlaceholder ∧
    logsGuidBody sampleEnv initState ≠ "" ∧
    logsDataBody sampleEnv initState ≠ "" ∧
    strContains (logsGuidBody sampleEnv initState)
      "No activity logged yet on this pod." = true ∧
    strContains (logsDataBody sampleEnv initState)
      "No user interactions logged yet on this pod." = true) :=
  ⟨rfl, c7_empty_buffer_placeholder sampleEnv initState rfl⟩

/-- C8: the `GET /api/logs/data` report renders the stored entries with every
pipe character replaced (by the dash text `" -"`): the body is the header
followed by the sanitised entries, and the sanitised entries contain no pipe
character at all. -/
theorem c8_data_report_no_pipes (env : Env) (s : ServerState) :
    logsDataBody env s = dataHeader env s ++
      (if s.podLogs.length = 0 then dataPlaceholder
       else formattedDataLogs s.podLogs) ∧
    (formattedDataLogs s.podLogs).data.contains '|' = false := by
  constructor
  · unfold logsDataBody
    split <;> simp_all
  · have hni := formattedDataLogs_no_pipe s.podLogs
    have hiff : (formattedDataLogs s.podLogs).data.contains '|' = false ↔
        '|' ∉ (formattedDataLogs s.podLogs).data := by
      simp [List.contains]
    exact hiff.mpr hni

/-- C9: the two log-retrieval handlers are read-only (state returned exactly as
received), as are `/api/pod-status`, `/api/health` and `/`; only the ingestion
handler and `/api/pod-guid` mutate the request counter, each by one. -/
theorem c9_retrieval_read_only (env : Env) (t : String) (u : Nat)
    (s : ServerState) (ts fid : String) (p : Payload) :
    (handleLogsGuid env s).2 = s ∧
    (handleLogsData env s).2 = s ∧
    step env Op.logsGuid s = s ∧
    step env Op.logsData s = s ∧
    (handlePodStatus env t u s).2 = s ∧
    (handleHealth env t u s).2 = s ∧
    (handleRoot env s).2 = s ∧
    (handlePodGuid env t u s).2.requestCount = s.requestCount + 1 ∧
    (postLogRoute env ts fid (rawOf p) s).2.requestCount = s.requestCount + 1 := by
  refine ⟨rfl, rfl, rfl, rfl, rfl, rfl, rfl, rfl, ?_⟩
  rw [postLogRoute_rawOf]
  rfl

/-- C10: the client-supplied `podName` field has no influence on the stored
entry, the resulting state, or the response: two valid payloads agreeing on
`action`, `guid`, `details` and `timestamp` (and differing arbitrarily in
`podName`) are handled identically, because the stored pod name comes from the
server environment. -/
theorem c10_podname_no_influence (env : Env) (ts fid : String)
    (s : ServerState) (p1 p2 : Payload) (ha : p1.action = p2.action)
    (hd : p1.details = p2.details) (hg : p1.guid = p2.guid)
    (ht : p1.timestamp = p2.timestamp) :
    postLogRoute env ts fid (rawOf p1) s = postLogRoute env ts fid (rawOf p2) s := by
  rw [postLogRoute_rawOf, postLogRoute_rawOf]
  unfold postLogHandler
  rw [ha, hd]

/-- Witness for C10 at two concrete payloads differing only in `podName`. -/
theorem c10_podname_no_influence_witness :
    (Payload.mk "a1" "g1" "d1" "t1" (some "pod-A")).action =
        (Payload.mk "a1" "g1" "d1" "t1" (some "pod-B")).action ∧
    (Payload.mk "a1" "g1" "d1" "t1" (some "pod-A")).details =
        (Payload.mk "a1" "g1" "d1" "t1" (some "pod-B")).details ∧
    (Payload.mk "a1" "g1" "d1" "t1" (some "pod-A")).guid =
        (Payload.mk "a1" "g1" "d1" "t1" (some "pod-B")).guid ∧
    (Payload.mk "a1" "g1" "d1" "t1" (some "pod-A")).timestamp =
        (Payload.mk "a1" "g1" "d1" "t1" (some "pod-B")).timestamp ∧
    postLogRoute sampleEnv "ts0" "id0"
        (rawOf (Payload.mk "a1" "g1" "d1" "t1" (some "pod-A"))) initState =
      postLogRoute sampleEnv "ts0" "id0"
        (rawOf (Payload.mk "a1" "g1" "d1" "t1" (some "pod-B"))) initState :=
  ⟨rfl, rfl, rfl, rfl,
   c10_podname_no_influence sampleEnv "ts0" "id0" initState _ _ rfl rfl rfl rfl⟩
